import Mathlib

/-!
Verification of the Air Quality Monitoring System core
(repository aroyy007/Air_Quality_Monitoring_System).

The development shallowly embeds the two JavaScript AQI-calculation copies
(`src/backend/utils/aqiCalculator.js` and the prediction controller in
`src/unnamed/part_000`), the min-max normalizer, the fallback forecaster and
the prediction pipeline.  JavaScript numbers are modelled as exact rationals;
where `NaN` is reachable (the fallback forecaster subtracts an *array* from a
number) values are wrapped in the `JVal` type, which carries an explicit `nan`
constructor mirroring IEEE NaN propagation through `+`, `-`, `*`, `Math.max`.
Decimal literals of the source (e.g. `12.1`) are written as exact rationals
(`121/10`).  `Math.round` is Mathlib's `round`, i.e. `⌊x + 1/2⌋`, which is
exactly JavaScript's rounding rule (half goes toward +∞).
-/

namespace AirQuality

/-- A JavaScript number that is either NaN or an exact rational.
`nan` absorbs every arithmetic operation, as IEEE NaN does. -/
inductive JVal where
  | nan : JVal
  | num : ℚ → JVal
  deriving DecidableEq, Repr

/-- JS `+` on possibly-NaN numbers. -/
def jadd : JVal → JVal → JVal
  | JVal.num a, JVal.num b => JVal.num (a + b)
  | _, _ => JVal.nan

/-- JS `-` on possibly-NaN numbers. -/
def jsub : JVal → JVal → JVal
  | JVal.num a, JVal.num b => JVal.num (a - b)
  | _, _ => JVal.nan

/-- JS `*` on possibly-NaN numbers. -/
def jmul : JVal → JVal → JVal
  | JVal.num a, JVal.num b => JVal.num (a * b)
  | _, _ => JVal.nan

/-- JS `Math.max` on two numbers: NaN if either argument is NaN. -/
def jmax : JVal → JVal → JVal
  | JVal.num a, JVal.num b => JVal.num (max a b)
  | _, _ => JVal.nan

/-- When JavaScript coerces an array of numbers to a number (as in
`number - array`), `[]` becomes `0`, a one-element array becomes its element,
and any longer array becomes NaN (its string form contains a comma). -/
def rowToNum : List ℚ → JVal
  | [] => JVal.num 0
  | [x] => JVal.num x
  | _ => JVal.nan

/-!
### Backend AQI calculator — `src/backend/utils/aqiCalculator.js`
-/

namespace AQICalc

/-- `linearScale(concentration, minConc, maxConc, minAQI, maxAQI)`:
`Math.round(((maxAQI - minAQI) / (maxConc - minConc)) * (concentration - minConc) + minAQI)`. -/
def linearScale (concentration minConc maxConc minAQI maxAQI : ℚ) : ℤ :=
  round ((maxAQI - minAQI) / (maxConc - minConc) * (concentration - minConc) + minAQI)

/-- `calculatePM25Index` (μg/m³), lines 12–20. -/
def calculatePM25Index (pm25 : ℚ) : ℤ :=
  if pm25 ≤ 12 then linearScale pm25 0 12 0 50
  else if pm25 ≤ 354 / 10 then linearScale pm25 (121 / 10) (354 / 10) 51 100
  else if pm25 ≤ 554 / 10 then linearScale pm25 (355 / 10) (554 / 10) 101 150
  else if pm25 ≤ 1504 / 10 then linearScale pm25 (555 / 10) (1504 / 10) 151 200
  else if pm25 ≤ 2504 / 10 then linearScale pm25 (1505 / 10) (2504 / 10) 201 300
  else if pm25 ≤ 3504 / 10 then linearScale pm25 (2505 / 10) (3504 / 10) 301 400
  else linearScale pm25 (3505 / 10) (5004 / 10) 401 500

/-- `calculatePM10Index` (μg/m³), lines 23–31. -/
def calculatePM10Index (pm10 : ℚ) : ℤ :=
  if pm10 ≤ 54 then linearScale pm10 0 54 0 50
  else if pm10 ≤ 154 then linearScale pm10 55 154 51 100
  else if pm10 ≤ 254 then linearScale pm10 155 254 101 150
  else if pm10 ≤ 354 then linearScale pm10 255 354 151 200
  else if pm10 ≤ 424 then linearScale pm10 355 424 201 300
  else if pm10 ≤ 504 then linearScale pm10 425 504 301 400
  else linearScale pm10 505 604 401 500

/-- `calculateO3Index` (ppb), lines 34–41. -/
def calculateO3Index (o3 : ℚ) : ℤ :=
  if o3 ≤ 54 then linearScale o3 0 54 0 50
  else if o3 ≤ 70 then linearScale o3 55 70 51 100
  else if o3 ≤ 85 then linearScale o3 71 85 101 150
  else if o3 ≤ 105 then linearScale o3 86 105 151 200
  else if o3 ≤ 200 then linearScale o3 106 200 201 300
  else linearScale o3 201 504 301 500

/-- `calculateCOIndex` (ppm), lines 44–52 — the backend's ADJUSTED table. -/
def calculateCOIndex (co : ℚ) : ℤ :=
  if co ≤ 1 then linearScale co 0 1 0 50
  else if co ≤ 2 then linearScale co (11 / 10) 2 51 100
  else if co ≤ 44 / 10 then linearScale co (21 / 10) (44 / 10) 101 150
  else if co ≤ 94 / 10 then linearScale co (45 / 10) (94 / 10) 151 200
  else if co ≤ 124 / 10 then linearScale co (95 / 10) (124 / 10) 201 300
  else linearScale co (125 / 10) (154 / 10) 301 500

/-- `calculateSO2Index` (ppb), lines 55–63. -/
def calculateSO2Index (so2 : ℚ) : ℤ :=
  if so2 ≤ 35 then linearScale so2 0 35 0 50
  else if so2 ≤ 75 then linearScale so2 36 75 51 100
  else if so2 ≤ 185 then linearScale so2 76 185 101 150
  else if so2 ≤ 304 then linearScale so2 186 304 151 200
  else if so2 ≤ 604 then linearScale so2 305 604 201 300
  else if so2 ≤ 804 then linearScale so2 605 804 301 400
  else linearScale so2 805 1004 401 500

/-- `calculateNO2Index` (ppb), lines 66–74. -/
def calculateNO2Index (no2 : ℚ) : ℤ :=
  if no2 ≤ 53 then linearScale no2 0 53 0 50
  else if no2 ≤ 100 then linearScale no2 54 100 51 100
  else if no2 ≤ 360 then linearScale no2 101 360 101 150
  else if no2 ≤ 649 then linearScale no2 361 649 151 200
  else if no2 ≤ 1249 then linearScale no2 650 1249 201 300
  else if no2 ≤ 1649 then linearScale no2 1250 1649 301 400
  else linearScale no2 1650 2049 401 500

end AQICalc

/-- A pollutant reading (spec §3): each pollutant key maps to a value or is
absent (JS `undefined`). -/
structure Reading where
  pm25 : Option ℚ
  pm10 : Option ℚ
  o3 : Option ℚ
  no2 : Option ℚ
  so2 : Option ℚ
  co : Option ℚ
  deriving DecidableEq, Repr

/-- All present values of a reading are non-negative (spec §3: a pollutant
reading maps to "a non-negative float or absent"). -/
def Reading.nonneg (r : Reading) : Prop :=
  (∀ v, r.pm25 = some v → 0 ≤ v) ∧ (∀ v, r.pm10 = some v → 0 ≤ v) ∧
  (∀ v, r.o3 = some v → 0 ≤ v) ∧ (∀ v, r.no2 = some v → 0 ≤ v) ∧
  (∀ v, r.so2 = some v → 0 ≤ v) ∧ (∀ v, r.co = some v → 0 ≤ v)

namespace AQICalc

/-- One conditional `indices.push(...)` of `calculateAQI` (lines 84–118):
the sub-index is pushed iff the value is defined and strictly positive
(`pollutants.p !== undefined && pollutants.p > 0`). -/
def seg (o : Option ℚ) (f : ℚ → ℤ) : List ℤ :=
  match o with
  | some v => if 0 < v then [f v] else []
  | none => []

/-- `indices.length > 0 ? Math.max(...indices) : 0` (line 124). -/
def maxOr0 (l : List ℤ) : ℤ :=
  match l with
  | [] => 0
  | x :: xs => xs.foldl max x

/-- `calculateAQI(pollutants)` (lines 77–130): pushes the six sub-indices of
the defined strictly-positive pollutants in source order, then takes the
maximum (0 if the list is empty). -/
def calculateAQI (r : Reading) : ℤ :=
  maxOr0 (seg r.pm25 calculatePM25Index ++ seg r.pm10 calculatePM10Index ++
    seg r.o3 calculateO3Index ++ seg r.co calculateCOIndex ++
    seg r.so2 calculateSO2Index ++ seg r.no2 calculateNO2Index)

end AQICalc

/-!
### Prediction controller — `src/unnamed/part_000`
-/

namespace Pred

/-- `linearScale` (lines 631–635), identical text to the backend copy. -/
def linearScale (concentration minConc maxConc minAQI maxAQI : ℚ) : ℤ :=
  round ((maxAQI - minAQI) / (maxConc - minConc) * (concentration - minConc) + minAQI)

/-- `calculatePM25Index` (lines 572–580). -/
def calculatePM25Index (pm25 : ℚ) : ℤ :=
  if pm25 ≤ 12 then linearScale pm25 0 12 0 50
  else if pm25 ≤ 354 / 10 then linearScale pm25 (121 / 10) (354 / 10) 51 100
  else if pm25 ≤ 554 / 10 then linearScale pm25 (355 / 10) (554 / 10) 101 150
  else if pm25 ≤ 1504 / 10 then linearScale pm25 (555 / 10) (1504 / 10) 151 200
  else if pm25 ≤ 2504 / 10 then linearScale pm25 (1505 / 10) (2504 / 10) 201 300
  else if pm25 ≤ 3504 / 10 then linearScale pm25 (2505 / 10) (3504 / 10) 301 400
  else linearScale pm25 (3505 / 10) (5004 / 10) 401 500

/-- `calculatePM10Index` (lines 582–590). -/
def calculatePM10Index (pm10 : ℚ) : ℤ :=
  if pm10 ≤ 54 then linearScale pm10 0 54 0 50
  else if pm10 ≤ 154 then linearScale pm10 55 154 51 100
  else if pm10 ≤ 254 then linearScale pm10 155 254 101 150
  else if pm10 ≤ 354 then linearScale pm10 255 354 151 200
  else if pm10 ≤ 424 then linearScale pm10 355 424 201 300
  else if pm10 ≤ 504 then linearScale pm10 425 504 301 400
  else linearScale pm10 505 604 401 500

/-- `calculateO3Index` (lines 592–599). -/
def calculateO3Index (o3 : ℚ) : ℤ :=
  if o3 ≤ 54 then linearScale o3 0 54 0 50
  else if o3 ≤ 70 then linearScale o3 55 70 51 100
  else if o3 ≤ 85 then linearScale o3 71 85 101 150
  else if o3 ≤ 105 then linearScale o3 86 105 151 200
  else if o3 ≤ 200 then linearScale o3 106 200 201 300
  else linearScale o3 201 504 301 500

/-- `calculateCOIndex` (lines 601–609) — the EPA table, which DIFFERS from the
backend copy's adjusted table. -/
def calculateCOIndex (co : ℚ) : ℤ :=
  if co ≤ 44 / 10 then linearScale co 0 (44 / 10) 0 50
  else if co ≤ 94 / 10 then linearScale co (45 / 10) (94 / 10) 51 100
  else if co ≤ 124 / 10 then linearScale co (95 / 10) (124 / 10) 101 150
  else if co ≤ 154 / 10 then linearScale co (125 / 10) (154 / 10) 151 200
  else if co ≤ 304 / 10 then linearScale co (155 / 10) (304 / 10) 201 300
  else if co ≤ 404 / 10 then linearScale co (305 / 10) (404 / 10) 301 400
  else linearScale co (405 / 10) (504 / 10) 401 500

/-- `calculateSO2Index` (lines 611–619). -/
def calculateSO2Index (so2 : ℚ) : ℤ :=
  if so2 ≤ 35 then linearScale so2 0 35 0 50
  else if so2 ≤ 75 then linearScale so2 36 75 51 100
  else if so2 ≤ 185 then linearScale so2 76 185 101 150
  else if so2 ≤ 304 then linearScale so2 186 304 151 200
  else if so2 ≤ 604 then linearScale so2 305 604 201 300
  else if so2 ≤ 804 then linearScale so2 605 804 301 400
  else linearScale so2 805 1004 401 500

/-- `calculateNO2Index` (lines 621–629). -/
def calculateNO2Index (no2 : ℚ) : ℤ :=
  if no2 ≤ 53 then linearScale no2 0 53 0 50
  else if no2 ≤ 100 then linearScale no2 54 100 51 100
  else if no2 ≤ 360 then linearScale no2 101 360 101 150
  else if no2 ≤ 649 then linearScale no2 361 649 151 200
  else if no2 ≤ 1249 then linearScale no2 650 1249 201 300
  else if no2 ≤ 1649 then linearScale no2 1250 1649 301 400
  else linearScale no2 1650 2049 401 500

/-- Lifts an index function to possibly-NaN input.  In JS, a NaN concentration
makes every `<=` branch test false, so control reaches the last `linearScale`,
whose arithmetic on NaN yields NaN; a numeric input takes the normal path.
So the JS functions propagate NaN and otherwise compute the rational result. -/
def jindex (f : ℚ → ℤ) : JVal → JVal
  | JVal.nan => JVal.nan
  | JVal.num q => JVal.num ((f q : ℤ) : ℚ)

/-- The pollutants object handed to `calculateAQIFromPollutants`; fields may be
`undefined` (`none`) when a prediction vector has fewer than 6 entries. -/
structure PollutantsJ where
  pm25 : Option JVal
  pm10 : Option JVal
  o3 : Option JVal
  no2 : Option JVal
  so2 : Option JVal
  co : Option JVal
  deriving DecidableEq, Repr

/-- One conditional `indices.push(...)` of `calculateAQIFromPollutants`
(lines 542–565): the check is only `!== undefined && !== null`, with NO
positivity test — a defined value is always pushed. -/
def segJ (o : Option JVal) (f : ℚ → ℤ) : List JVal :=
  match o with
  | some v => [jindex f v]
  | none => []

/-- `indices.length > 0 ? Math.max(...indices) : 0` (line 568). -/
def maxOr0J (l : List JVal) : JVal :=
  match l with
  | [] => JVal.num 0
  | x :: xs => xs.foldl jmax x

/-- `calculateAQIFromPollutants(pollutants)` (lines 538–569), in source
push order: pm25, o3, pm10, co, so2, no2. -/
def calculateAQIFromPollutants (p : PollutantsJ) : JVal :=
  maxOr0J (segJ p.pm25 calculatePM25Index ++ segJ p.o3 calculateO3Index ++
    segJ p.pm10 calculatePM10Index ++ segJ p.co calculateCOIndex ++
    segJ p.so2 calculateSO2Index ++ segJ p.no2 calculateNO2Index)

end Pred

/-!
### Spec-side aggregation rule (claim C1 / spec §4.1 wording)
-/

/-- From the spec's words: a pollutant contributes its sub-index exactly when
it is "present in `reading`" with a "value strictly greater than zero". -/
def specSeg (o : Option ℚ) (f : ℚ → ℤ) : List ℤ :=
  match o with
  | some v => if 0 < v then [f v] else []
  | none => []

/-- From the spec's words: "returns the maximum sub-index found, or 0 if none
are present". -/
def specMax (l : List ℤ) : ℤ :=
  match l with
  | [] => 0
  | x :: xs => xs.foldl max x

/-- The spec's `aggregate(reading)` rule, parameterized by the per-pollutant
index functions of the path under consideration. -/
def aggregateSpec (r : Reading) (fPM25 fPM10 fO3 fCO fSO2 fNO2 : ℚ → ℤ) : ℤ :=
  specMax (specSeg r.pm25 fPM25 ++ specSeg r.pm10 fPM10 ++ specSeg r.o3 fO3 ++
    specSeg r.co fCO ++ specSeg r.so2 fSO2 ++ specSeg r.no2 fNO2)

namespace Pred

/-!
### TimeSeriesNormalizer — `normalizeData` / `denormalizeData` (part_000, lines 307–354)
-/

/-- Models JS `point.map((val, i) => ...)`: map with the element index. -/
def mapWithIndexGo (f : ℕ → ℚ → ℚ) : ℕ → List ℚ → List ℚ
  | _, [] => []
  | n, x :: xs => f n x :: mapWithIndexGo f (n + 1) xs

def mapWithIndex (f : ℕ → ℚ → ℚ) (l : List ℚ) : List ℚ := mapWithIndexGo f 0 l

/-- The `Math.min(Infinity, …)` fold of the source: after the first column
element the `Infinity` seed is gone, so on a nonempty column this is the
column minimum.  The empty-column value is never used (the series is
nonempty). -/
def listMin : List ℚ → ℚ
  | [] => 0
  | [x] => x
  | x :: y :: xs => min x (listMin (y :: xs))

/-- The `Math.max(-Infinity, …)` fold, see `listMin`. -/
def listMax : List ℚ → ℚ
  | [] => 0
  | [x] => x
  | x :: y :: xs => max x (listMax (y :: xs))

/-- The i-th feature column of a series (every point is read with `point[i]`,
modelled with default 0; the callers guarantee equal row lengths). -/
def col (data : List (List ℚ)) (i : ℕ) : List ℚ := data.map (fun p => p.getD i 0)

/-- `mins[i]` of `normalizeData`/`denormalizeData`. -/
def colMin (data : List (List ℚ)) (i : ℕ) : ℚ := listMin (col data i)

/-- `maxs[i]` of `normalizeData`/`denormalizeData`. -/
def colMax (data : List (List ℚ)) (i : ℕ) : ℚ := listMax (col data i)

/-- `normalizeData(data)` (lines 307–328): elementwise min-max scaling,
0 for a degenerate (constant) feature. -/
def normalizeData (data : List (List ℚ)) : List (List ℚ) :=
  data.map (fun p => mapWithIndex (fun i v =>
    if colMin data i = colMax data i then 0
    else (v - colMin data i) / (colMax data i - colMin data i)) p)

/-- `denormalizeData(normalizedData, originalData)` (lines 331–354): inverse
scaling with stats recomputed from `originalData`, clamped to
`[0, 2 * maxs[i]]`; a degenerate feature comes back as `mins[i]` unclamped. -/
def denormalizeData (normalizedData originalData : List (List ℚ)) : List (List ℚ) :=
  normalizedData.map (fun p => mapWithIndex (fun i v =>
    if colMin originalData i = colMax originalData i then colMin originalData i
    else max 0 (min (v * (colMax originalData i - colMin originalData i) + colMin originalData i)
      (colMax originalData i * 2))) (p.take (originalData.headD []).length))

/-- The weather summary of `fetchOpenWeatherData`; only the fields used by
`addWeatherFeatures` are modelled, each possibly undefined. -/
structure WeatherData where
  temp : Option ℚ
  humidity : Option ℚ
  wind_speed : Option ℚ
  deriving DecidableEq, Repr

/-- `addWeatherFeatures(data, weatherData)` (lines 357–384): deep-copies the
series and pushes `temp/100`, `humidity/100`, `wind_speed/10` onto every
point, one per defined field. -/
def addWeatherFeatures (data : List (List ℚ)) (w : WeatherData) : List (List ℚ) :=
  data.map (fun p =>
    p ++ (match w.temp with | some t => [t / 100] | none => []) ++
      (match w.humidity with | some h => [h / 100] | none => []) ++
      (match w.wind_speed with | some s => [s / 10] | none => []))

/-- The zero vector `[0, 0, 0, 0, 0, 0]` used as padding for an empty series. -/
def zeroVec : List ℚ := [0, 0, 0, 0, 0, 0]

/-- The padding loop of `makePrediction` (lines 201–212): while the series is
shorter than 24, `unshift` a copy of the first point (or the zero vector when
the series is empty) onto the front — so the result is the original series
left-padded with copies of its earliest point up to length 24. -/
def padSeries (data : List (List ℚ)) : List (List ℚ) :=
  if data.length < 24 then
    List.replicate (24 - data.length) (data.headD zeroVec) ++ data
  else data

/-- `extractDailyPatterns(data)` (lines 507–535).  `hourlyAverages` holds the
24 × numPollutants matrix of per-hour-bucket SUMS; a pattern entry divides the
sum by the bucket count and then evaluates `hourlyAverage - hourlyAverages[i]`.
`hourlyAverages[i]` is the ROW ARRAY at index `i` (not the overall feature
mean the comment announces), so JS coerces that array to a number
(`rowToNum`): NaN whenever the series has two or more features. -/
def extractDailyPatterns (data : List (List ℚ)) : List (List JVal) :=
  let numPollutants := (data.headD []).length
  let hourlySum : ℕ → ℕ → ℚ := fun h i =>
    (((List.range data.length).filter (fun idx => idx % 24 = h)).map
      (fun idx => (data.getD idx []).getD i 0)).sum
  let hourlyCount : ℕ → ℕ := fun h =>
    ((List.range data.length).filter (fun idx => idx % 24 = h)).length
  let sumRow : ℕ → List ℚ := fun h => (List.range numPollutants).map (hourlySum h)
  (List.range 24).map (fun h =>
    (List.range numPollutants).map (fun i =>
      if hourlyCount h = 0 then JVal.num 0
      else
        jsub (JVal.num (hourlySum h i / (hourlyCount h : ℚ)))
          (if i < 24 then rowToNum (sumRow i) else JVal.nan)))

/-- A forecast point `{aqi, pollutants}` (lines 288–293 / 495–500). -/
structure ForecastPt where
  aqi : JVal
  pollutants : PollutantsJ
  deriving DecidableEq, Repr

/-- The destructuring `const [pm25, pm10, o3, no2, so2, co] = …` (lines 278
and 489): positional, `undefined` past the end of the vector. -/
def mkPollutantsJ (l : List JVal) : PollutantsJ :=
  ⟨l[0]?, l[1]?, l[2]?, l[3]?, l[4]?, l[5]?⟩

/-- `generateFallbackPrediction(processedData)` (lines 429–504).  The ambient
`Math.random() * 0.1 - 0.05` draws are passed in as `rand hour i` and
`new Date().getHours()` as `currentHour`.  The per-point accumulation
`averages[i] += val / length` is summed before the division (equal in exact
arithmetic). -/
def generateFallbackPrediction (data : List (List ℚ)) (rand : ℕ → ℕ → ℚ)
    (currentHour : ℕ) : List ForecastPt :=
  let recentData := data.drop (data.length - 72)
  let dataToUse :=
    if 24 ≤ recentData.length then recentData
    else (List.range 24).map (fun i =>
      if data.length = 0 then zeroVec else data.getD (i % data.length) zeroVec)
  let numPollutants := (dataToUse.headD []).length
  let averages : ℕ → ℚ := fun i =>
    (dataToUse.map (fun p => p.getD i 0)).sum / (dataToUse.length : ℚ)
  let trends : ℕ → ℚ := fun i =>
    if 2 ≤ dataToUse.length then
      ((List.range (dataToUse.length - 1)).map (fun k =>
        (dataToUse.getD (k + 1) []).getD i 0 - (dataToUse.getD k []).getD i 0)).sum /
        ((dataToUse.length : ℚ) - 1)
    else 0
  let dailyPatterns : Option (List (List JVal)) :=
    if 24 ≤ dataToUse.length then some (extractDailyPatterns dataToUse) else none
  (List.range 24).map (fun (hour : ℕ) =>
    let predictedPollutants : List JVal := (List.range numPollutants).map (fun (i : ℕ) =>
      let base : JVal := JVal.num (averages i + trends i * (hour : ℚ))
      let withPattern : JVal :=
        match dailyPatterns with
        | some pats => jadd base ((pats.getD ((currentHour + hour) % 24) []).getD i JVal.nan)
        | none => base
      let variation : JVal := jmul withPattern (JVal.num (rand hour i))
      jmax (JVal.num 0) (jadd withPattern variation))
    { aqi := calculateAQIFromPollutants (mkPollutantsJ predictedPollutants),
      pollutants := mkPollutantsJ predictedPollutants })

/-- One remote forecast point (lines 276–294): take the first 6 entries of the
denormalized vector, clamp each to ≥ 0, destructure positionally, compute the
AQI. -/
def mkForecastPt (ps : List ℚ) : ForecastPt :=
  let p := mkPollutantsJ (((ps.take 6).map (fun v => max 0 v)).map JVal.num)
  { aqi := calculateAQIFromPollutants p, pollutants := p }

/-- The remote branch of `makePrediction` (lines 272–296): denormalize the
returned vectors against the padded series' stats, then convert each vector. -/
def remoteForecast (padded : List (List ℚ)) (preds : List (List ℚ)) : List ForecastPt :=
  (denormalizeData preds padded).map mkForecastPt

/-- The well-typed responses of the predictor contract (spec §6): a bare array
of vectors, an object with an optional `predictions` array field, or data that
is not an object at all. -/
inductive Resp where
  | arr : List (List ℚ) → Resp
  | obj : Option (List (List ℚ)) → Resp
  | malformed : Resp
  deriving DecidableEq, Repr

/-- The observable outcome of invoking the predictor: a transport error (any
`axios` throw, including the missing-API-key throw) or a response. -/
inductive PredOutcome where
  | transportError : PredOutcome
  | ok : Resp → PredOutcome
  deriving DecidableEq, Repr

/-- The predictions list `makePrediction` extracts from an outcome; `none`
when the code takes a `throw` path into the `catch` (lines 252–270): transport
error, non-object data, or an object without a `predictions` field. -/
def predictionsOf : PredOutcome → Option (List (List ℚ))
  | PredOutcome.transportError => none
  | PredOutcome.ok (Resp.arr l) => some l
  | PredOutcome.ok (Resp.obj (some l)) => some l
  | PredOutcome.ok (Resp.obj none) => none
  | PredOutcome.ok Resp.malformed => none

/-- `makePrediction(processedData)` (lines 199–304) as a function of the data,
the optional weather lookup result, and the predictor outcome.  The
normalized, optionally weather-enhanced input is what the external predictor
is sent; its reply is the `out` parameter.  Every failure path of the `try`
lands in the `catch`, which returns the fallback computed on the padded
series — so the function is total and never propagates an error. -/
def makePrediction (data : List (List ℚ)) (w : Option WeatherData)
    (out : PredOutcome) (rand : ℕ → ℕ → ℚ) (currentHour : ℕ) : List ForecastPt :=
  let padded := padSeries data
  let normalized := normalizeData padded
  let _enhanced := match w with
    | none => normalized
    | some wd => addWeatherFeatures normalized wd
  match predictionsOf out with
  | none => generateFallbackPrediction padded rand currentHour
  | some preds => remoteForecast padded preds

/-- The caller-visible content of the `processedData` argument after
`makePrediction` returns: the padding loop `unshift`s onto the caller's array
in place (lines 209–211), and every later step works on copies
(`normalizeData`/`denormalizeData` build new arrays, `enhancedInput` is a
spread copy, `addWeatherFeatures` deep-copies, the fallback only reads). -/
def makePredictionPost (data : List (List ℚ)) : List (List ℚ) := padSeries data

end Pred

/-- The forecast path's unconditional inclusion (`!== undefined && !== null`)
as an integer-level segment: a present value always contributes. -/
def zseg (o : Option ℚ) (f : ℚ → ℤ) : List ℤ :=
  match o with
  | some v => [f v]
  | none => []

/-- Embeds an integer sub-index as a JS number. -/
def numZ (z : ℤ) : JVal := JVal.num (z : ℚ)

/-- The pollutants object the forecast path builds from a reading whose values
are plain numbers. -/
def readingToJ (r : Reading) : Pred.PollutantsJ :=
  ⟨r.pm25.map JVal.num, r.pm10.map JVal.num, r.o3.map JVal.num,
    r.no2.map JVal.num, r.so2.map JVal.num, r.co.map JVal.num⟩

/-- From C4's words: a predictor failure is "any transport error, or a
response that is neither an array nor an object with a `predictions` array
field". -/
def predictorFailure (out : Pred.PredOutcome) : Prop :=
  out = Pred.PredOutcome.transportError ∨
    ((∀ l, out ≠ Pred.PredOutcome.ok (Pred.Resp.arr l)) ∧
      (∀ l, out ≠ Pred.PredOutcome.ok (Pred.Resp.obj (some l))))

/-- The daily pattern claim C5 describes (and the code's own comment
announces): for each hour-of-day bucket, the bucket's average per-feature
value minus the overall per-feature mean of the window. -/
def dailyPatternSpec (data : List (List ℚ)) (h i : ℕ) : ℚ :=
  let bucket := ((List.range data.length).filter (fun idx => idx % 24 = h)).map
    (fun idx => (data.getD idx []).getD i 0)
  let overallMean := (data.map (fun p => p.getD i 0)).sum / (data.length : ℚ)
  bucket.sum / (bucket.length : ℚ) - overallMean

/-! ### Rounding helpers (JS `Math.round` = `round` on `ℚ`) -/

theorem round_mono_q {x y : ℚ} (h : x ≤ y) : round x ≤ round y := by
  rw [round_eq, round_eq]
  exact Int.floor_le_floor (by linarith)

theorem round_le_int {n : ℤ} {x : ℚ} (h : x < (n : ℚ) + 1 / 2) : round x ≤ n := by
  rw [round_eq]
  have : (⌊x + 1 / 2⌋ : ℤ) < n + 1 := by
    apply Int.floor_lt.mpr
    push_cast
    linarith
  omega

theorem int_le_round {n : ℤ} {x : ℚ} (h : (n : ℚ) - 1 / 2 ≤ x) : n ≤ round x := by
  rw [round_eq]
  apply Int.le_floor.mpr
  linarith

/-- If `x` stays below the half-open rounding threshold of the integer `n`
and `y` stays above it, the rounded values are separated by `n`. -/
theorem round_sep {x y : ℚ} (n : ℤ) (hx : x < (n : ℚ) + 1 / 2)
    (hy : (n : ℚ) - 1 / 2 ≤ y) : round x ≤ round y :=
  le_trans (round_le_int hx) (int_le_round hy)

/-!
### Fold lemmas for the max-of-list aggregation
-/

theorem foldr_max_zero_nonneg (l : List ℤ) : 0 ≤ l.foldr max 0 := by
  induction l with
  | nil => simp
  | cons x xs ih => exact le_max_of_le_right ih

theorem foldr_max_append (l1 l2 : List ℤ) :
    (l1 ++ l2).foldr max 0 = max (l1.foldr max 0) (l2.foldr max 0) := by
  induction l1 with
  | nil => simp [max_eq_right (foldr_max_zero_nonneg l2)]
  | cons x xs ih => simp [List.foldr_cons, ih, max_assoc]

theorem foldr_max_pull (a x : ℤ) (l : List ℤ) :
    l.foldr max (max a x) = max x (l.foldr max a) := by
  induction l with
  | nil => simp [max_comm]
  | cons y ys ih => rw [List.foldr_cons, List.foldr_cons, ih, max_left_comm]

theorem foldl_max_eq_foldr (a : ℤ) (l : List ℤ) : l.foldl max a = l.foldr max a := by
  induction l generalizing a with
  | nil => rfl
  | cons x xs ih => rw [List.foldl_cons, ih, List.foldr_cons, ← foldr_max_pull]

theorem specMax_eq_foldr (l : List ℤ) (h : ∀ x ∈ l, 0 ≤ x) :
    specMax l = l.foldr max 0 := by
  cases l with
  | nil => rfl
  | cons x xs =>
      have hx : 0 ≤ x := h x (by simp)
      have h1 : specMax (x :: xs) = xs.foldr max x := foldl_max_eq_foldr x xs
      have h2 : xs.foldr max (max 0 x) = max x (xs.foldr max 0) := foldr_max_pull 0 x xs
      rw [h1, List.foldr_cons, ← h2, max_eq_right hx]

theorem maxOr0_eq_specMax (l : List ℤ) : AQICalc.maxOr0 l = specMax l := by
  cases l <;> rfl

/-!
### C1 — aggregation: max of sub-indices of present, strictly-positive pollutants
-/

theorem seg_eq_specSeg (o : Option ℚ) (f : ℚ → ℤ) : AQICalc.seg o f = specSeg o f := by
  cases o <;> rfl

theorem segJ_map_num (o : Option ℚ) (f : ℚ → ℤ) :
    Pred.segJ (o.map JVal.num) f = (zseg o f).map numZ := by
  cases o <;> rfl

theorem foldl_jmax_num (a : ℤ) (l : List ℤ) :
    (l.map numZ).foldl jmax (numZ a) = numZ (l.foldl max a) := by
  induction l generalizing a with
  | nil => rfl
  | cons x xs ih =>
      have hcast : jmax (numZ a) (numZ x) = numZ (max a x) := by
        rw [numZ, numZ, numZ, jmax]
        push_cast
        rfl
      rw [List.map_cons, List.foldl_cons, hcast, ih, List.foldl_cons]

theorem maxOr0J_num (l : List ℤ) :
    Pred.maxOr0J (l.map numZ) = numZ (AQICalc.maxOr0 l) := by
  cases l with
  | nil => rfl
  | cons x xs => exact foldl_jmax_num x xs

theorem zseg_elem_nonneg {o : Option ℚ} {f : ℚ → ℤ}
    (hfpos : ∀ v, 0 ≤ v → 0 ≤ f v) (ho : ∀ v, o = some v → 0 ≤ v) :
    ∀ x ∈ zseg o f, 0 ≤ x := by
  cases o with
  | none => intro x hx; cases hx
  | some v =>
      intro x hx
      rw [zseg, List.mem_singleton] at hx
      exact hx ▸ hfpos v (ho v rfl)

theorem specSeg_elem_nonneg {o : Option ℚ} {f : ℚ → ℤ}
    (hfpos : ∀ v, 0 ≤ v → 0 ≤ f v) (ho : ∀ v, o = some v → 0 ≤ v) :
    ∀ x ∈ specSeg o f, 0 ≤ x := by
  cases o with
  | none => intro x hx; cases hx
  | some v =>
      intro x hx
      rw [specSeg] at hx
      by_cases hpos : 0 < v
      · rw [if_pos hpos, List.mem_singleton] at hx
        exact hx ▸ hfpos v (ho v rfl)
      · rw [if_neg hpos] at hx
        cases hx

theorem foldr_zseg_eq_specSeg (o : Option ℚ) (f : ℚ → ℤ) (hf0 : f 0 = 0)
    (ho : ∀ v, o = some v → 0 ≤ v) :
    (zseg o f).foldr max 0 = (specSeg o f).foldr max 0 := by
  cases o with
  | none => rfl
  | some v =>
      have hv := ho v rfl
      by_cases hpos : 0 < v
      · rw [zseg, specSeg, if_pos hpos]
      · have hv0 : v = 0 := le_antisymm (not_lt.mp hpos) hv
        subst hv0
        rw [zseg, specSeg, if_neg hpos]
        simp [hf0]

/-- Zero concentration gives sub-index 0 for every forecast-path function. -/
theorem pred_index_zero :
    Pred.calculatePM25Index 0 = 0 ∧ Pred.calculatePM10Index 0 = 0 ∧
    Pred.calculateO3Index 0 = 0 ∧ Pred.calculateCOIndex 0 = 0 ∧
    Pred.calculateSO2Index 0 = 0 ∧ Pred.calculateNO2Index 0 = 0 := by
  refine ⟨?_, ?_, ?_, ?_, ?_, ?_⟩ <;>
    norm_num [Pred.calculatePM25Index, Pred.calculatePM10Index, Pred.calculateO3Index,
      Pred.calculateCOIndex, Pred.calculateSO2Index, Pred.calculateNO2Index,
      Pred.linearScale, round_eq]

theorem pred_pm25_nonneg {v : ℚ} (hv : 0 ≤ v) : 0 ≤ Pred.calculatePM25Index v := by
  unfold Pred.calculatePM25Index Pred.linearScale
  split_ifs <;> exact int_le_round (by push_cast; linarith)

theorem pred_pm10_nonneg {v : ℚ} (hv : 0 ≤ v) : 0 ≤ Pred.calculatePM10Index v := by
  unfold Pred.calculatePM10Index Pred.linearScale
  split_ifs <;> exact int_le_round (by push_cast; linarith)

theorem pred_o3_nonneg {v : ℚ} (hv : 0 ≤ v) : 0 ≤ Pred.calculateO3Index v := by
  unfold Pred.calculateO3Index Pred.linearScale
  split_ifs <;> exact int_le_round (by push_cast; linarith)

theorem pred_co_nonneg {v : ℚ} (hv : 0 ≤ v) : 0 ≤ Pred.calculateCOIndex v := by
  unfold Pred.calculateCOIndex Pred.linearScale
  split_ifs <;> exact int_le_round (by push_cast; linarith)

theorem pred_so2_nonneg {v : ℚ} (hv : 0 ≤ v) : 0 ≤ Pred.calculateSO2Index v := by
  unfold Pred.calculateSO2Index Pred.linearScale
  split_ifs <;> exact int_le_round (by push_cast; linarith)

theorem pred_no2_nonneg {v : ℚ} (hv : 0 ≤ v) : 0 ≤ Pred.calculateNO2Index v := by
  unfold Pred.calculateNO2Index Pred.linearScale
  split_ifs <;> exact int_le_round (by push_cast; linarith)

/-- C1: for every pollutant reading (non-negative values, per the data model),
the direct-reading path's `calculateAQI` returns exactly the spec's
aggregate — the maximum of the sub-indices of the pollutants present with a
strictly positive value, 0 if there are none — and the forecast path's
`calculateAQIFromPollutants` returns the same rule's value computed with its
own index functions: although it also computes sub-indices for present
zero-valued pollutants, those sub-indices are 0 and never change the
maximum, so the same inclusion rule holds extensionally on both paths. -/
theorem c1_aggregate_max_rule (r : Reading) (h : r.nonneg) :
    AQICalc.calculateAQI r =
      aggregateSpec r AQICalc.calculatePM25Index AQICalc.calculatePM10Index
        AQICalc.calculateO3Index AQICalc.calculateCOIndex AQICalc.calculateSO2Index
        AQICalc.calculateNO2Index ∧
    Pred.calculateAQIFromPollutants (readingToJ r) =
      numZ (aggregateSpec r Pred.calculatePM25Index Pred.calculatePM10Index
        Pred.calculateO3Index Pred.calculateCOIndex Pred.calculateSO2Index
        Pred.calculateNO2Index) := by
  obtain ⟨h1, h2, h3, h4, h5, h6⟩ := h
  constructor
  · rw [AQICalc.calculateAQI, aggregateSpec, maxOr0_eq_specMax, seg_eq_specSeg,
      seg_eq_specSeg, seg_eq_specSeg, seg_eq_specSeg, seg_eq_specSeg, seg_eq_specSeg]
  · have e1 : Pred.calculateAQIFromPollutants (readingToJ r) =
        Pred.maxOr0J ((zseg r.pm25 Pred.calculatePM25Index ++
          zseg r.o3 Pred.calculateO3Index ++ zseg r.pm10 Pred.calculatePM10Index ++
          zseg r.co Pred.calculateCOIndex ++ zseg r.so2 Pred.calculateSO2Index ++
          zseg r.no2 Pred.calculateNO2Index).map numZ) := by
      simp only [Pred.calculateAQIFromPollutants, readingToJ, segJ_map_num, ← List.map_append]
    rw [e1, maxOr0J_num]
    refine congrArg numZ ?_
    have hz : ∀ x ∈ (zseg r.pm25 Pred.calculatePM25Index ++
        zseg r.o3 Pred.calculateO3Index ++ zseg r.pm10 Pred.calculatePM10Index ++
        zseg r.co Pred.calculateCOIndex ++ zseg r.so2 Pred.calculateSO2Index ++
        zseg r.no2 Pred.calculateNO2Index), 0 ≤ x := by
      intro x hx
      simp only [List.mem_append] at hx
      rcases hx with ((((hx | hx) | hx) | hx) | hx) | hx
      · exact zseg_elem_nonneg (fun v hv => pred_pm25_nonneg hv) h1 x hx
      · exact zseg_elem_nonneg (fun v hv => pred_o3_nonneg hv) h3 x hx
      · exact zseg_elem_nonneg (fun v hv => pred_pm10_nonneg hv) h2 x hx
      · exact zseg_elem_nonneg (fun v hv => pred_co_nonneg hv) h6 x hx
      · exact zseg_elem_nonneg (fun v hv => pred_so2_nonneg hv) h5 x hx
      · exact zseg_elem_nonneg (fun v hv => pred_no2_nonneg hv) h4 x hx
    have hs : ∀ x ∈ (specSeg r.pm25 Pred.calculatePM25Index ++
        specSeg r.pm10 Pred.calculatePM10Index ++ specSeg r.o3 Pred.calculateO3Index ++
        specSeg r.co Pred.calculateCOIndex ++ specSeg r.so2 Pred.calculateSO2Index ++
        specSeg r.no2 Pred.calculateNO2Index), 0 ≤ x := by
      intro x hx
      simp only [List.mem_append] at hx
      rcases hx with ((((hx | hx) | hx) | hx) | hx) | hx
      · exact specSeg_elem_nonneg (fun v hv => pred_pm25_nonneg hv) h1 x hx
      · exact specSeg_elem_nonneg (fun v hv => pred_pm10_nonneg hv) h2 x hx
      · exact specSeg_elem_nonneg (fun v hv => pred_o3_nonneg hv) h3 x hx
      · exact specSeg_elem_nonneg (fun v hv => pred_co_nonneg hv) h6 x hx
      · exact specSeg_elem_nonneg (fun v hv => pred_so2_nonneg hv) h5 x hx
      · exact specSeg_elem_nonneg (fun v hv => pred_no2_nonneg hv) h4 x hx
    rw [maxOr0_eq_specMax, specMax_eq_foldr _ hz, aggregateSpec, specMax_eq_foldr _ hs]
    simp only [foldr_max_append]
    rw [foldr_zseg_eq_specSeg _ _ pred_index_zero.1 h1,
      foldr_zseg_eq_specSeg _ _ pred_index_zero.2.2.1 h3,
      foldr_zseg_eq_specSeg _ _ pred_index_zero.2.1 h2,
      foldr_zseg_eq_specSeg _ _ pred_index_zero.2.2.2.1 h6,
      foldr_zseg_eq_specSeg _ _ pred_index_zero.2.2.2.2.1 h5,
      foldr_zseg_eq_specSeg _ _ pred_index_zero.2.2.2.2.2 h4]
    simp only [Max.right_comm]

/-- C1 witness: a reading with pm25 = 30, o3 = 5, co = 0, others absent. -/
theorem c1_witness :
    (⟨some 30, none, some 5, none, none, some 0⟩ : Reading).nonneg ∧
    (AQICalc.calculateAQI ⟨some 30, none, some 5, none, none, some 0⟩ =
        aggregateSpec ⟨some 30, none, some 5, none, none, some 0⟩ AQICalc.calculatePM25Index
          AQICalc.calculatePM10Index AQICalc.calculateO3Index AQICalc.calculateCOIndex
          AQICalc.calculateSO2Index AQICalc.calculateNO2Index ∧
      Pred.calculateAQIFromPollutants (readingToJ ⟨some 30, none, some 5, none, none, some 0⟩) =
        numZ (aggregateSpec ⟨some 30, none, some 5, none, none, some 0⟩ Pred.calculatePM25Index
          Pred.calculatePM10Index Pred.calculateO3Index Pred.calculateCOIndex
          Pred.calculateSO2Index Pred.calculateNO2Index)) := by
  have pf : (⟨some 30, none, some 5, none, none, some 0⟩ : Reading).nonneg := by
    refine ⟨?_, ?_, ?_, ?_, ?_, ?_⟩ <;> intro v hv <;> cases hv <;> norm_num
  exact ⟨pf, c1_aggregate_max_rule _ pf⟩

namespace Pred

theorem listMin_le {l : List ℚ} {x : ℚ} (hx : x ∈ l) : listMin l ≤ x := by
  induction l with
  | nil => cases hx
  | cons a as ih =>
      cases as with
      | nil =>
          rw [List.mem_singleton] at hx
          subst hx
          exact le_refl _
      | cons b bs =>
          rcases List.mem_cons.mp hx with h | h
          · subst h
            exact min_le_left _ _
          · exact le_trans (min_le_right _ _) (ih h)

theorem le_listMax {l : List ℚ} {x : ℚ} (hx : x ∈ l) : x ≤ listMax l := by
  induction l with
  | nil => cases hx
  | cons a as ih =>
      cases as with
      | nil =>
          rw [List.mem_singleton] at hx
          subst hx
          exact le_refl _
      | cons b bs =>
          rcases List.mem_cons.mp hx with h | h
          · subst h
            exact le_max_left _ _
          · exact le_trans (ih h) (le_max_right _ _)

theorem length_mapWithIndexGo (f : ℕ → ℚ → ℚ) (n : ℕ) (l : List ℚ) :
    (mapWithIndexGo f n l).length = l.length := by
  induction l generalizing n with
  | nil => rfl
  | cons x xs ih => simp [mapWithIndexGo, ih]

theorem length_mapWithIndex (f : ℕ → ℚ → ℚ) (l : List ℚ) :
    (mapWithIndex f l).length = l.length :=
  length_mapWithIndexGo f 0 l

theorem getD_mapWithIndexGo (f : ℕ → ℚ → ℚ) (n : ℕ) (l : List ℚ) (i : ℕ)
    (hi : i < l.length) : (mapWithIndexGo f n l).getD i 0 = f (n + i) (l.getD i 0) := by
  induction l generalizing n i with
  | nil => cases hi
  | cons x xs ih =>
      cases i with
      | zero => rfl
      | succ j =>
          have hj : j < xs.length := Nat.lt_of_succ_lt_succ hi
          have ihx := ih (n + 1) j hj
          have heq : n + 1 + j = n + (j + 1) := by omega
          rw [mapWithIndexGo, List.getD_cons_succ, List.getD_cons_succ, ihx, heq]

theorem mapWithIndexGo_comp (f g : ℕ → ℚ → ℚ) (n : ℕ) (l : List ℚ) :
    mapWithIndexGo g n (mapWithIndexGo f n l) =
      mapWithIndexGo (fun i v => g i (f i v)) n l := by
  induction l generalizing n with
  | nil => rfl
  | cons x xs ih => simp [mapWithIndexGo, ih]

theorem mapWithIndexGo_eq_self (h : ℕ → ℚ → ℚ) (n : ℕ) (l : List ℚ)
    (hl : ∀ i, i < l.length → h (n + i) (l.getD i 0) = l.getD i 0) :
    mapWithIndexGo h n l = l := by
  induction l generalizing n with
  | nil => rfl
  | cons x xs ih =>
      rw [mapWithIndexGo]
      have h0 := hl 0 (Nat.succ_pos _)
      rw [List.getD_cons_zero, Nat.add_zero] at h0
      rw [h0]
      refine congrArg (List.cons x) (ih (n + 1) ?_)
      intro i hi
      have hx := hl (i + 1) (Nat.succ_lt_succ hi)
      have heq : n + (i + 1) = n + 1 + i := by omega
      rw [List.getD_cons_succ, heq] at hx
      exact hx

theorem colMin_le_of_mem {data : List (List ℚ)} {p : List ℚ} (hp : p ∈ data) (i : ℕ) :
    colMin data i ≤ p.getD i 0 :=
  listMin_le (List.mem_map_of_mem _ hp)

theorem le_colMax_of_mem {data : List (List ℚ)} {p : List ℚ} (hp : p ∈ data) (i : ℕ) :
    p.getD i 0 ≤ colMax data i :=
  le_listMax (List.mem_map_of_mem _ hp)

theorem getD_nonneg_of_forall {p : List ℚ} (hp : ∀ v ∈ p, 0 ≤ v) (i : ℕ) :
    0 ≤ p.getD i 0 := by
  by_cases hi : i < p.length
  · rw [List.getD_eq_getElem p 0 hi]
    exact hp _ (List.getElem_mem hi)
  · rw [List.getD_eq_default _ _ (le_of_not_lt hi)]

/-- A value of a degenerate (constant) feature column equals the column min. -/
theorem degenerate_col_const {data : List (List ℚ)} {p : List ℚ} (hp : p ∈ data)
    {i : ℕ} (hdeg : colMin data i = colMax data i) : p.getD i 0 = colMin data i :=
  le_antisymm (hdeg ▸ le_colMax_of_mem hp i) (colMin_le_of_mem hp i)

end Pred

/-- C3: on a series of equal-length, non-negative rows (the data model's
concentration vectors), `denormalizeData` inverts `normalizeData` exactly:
the round trip returns the original series (for a non-degenerate feature the
scaling cancels and the `[0, 2*max]` clamp is inactive because
`0 ≤ x ≤ max`; for a degenerate feature `normalizeData` yields 0 and
`denormalizeData` yields `mins[i]`, which IS the original value since the
column is constant). -/
theorem c3_normalize_inverse (data : List (List ℚ)) (_hne : data ≠ [])
    (hlen : ∀ p ∈ data, p.length = (data.headD []).length)
    (hnn : ∀ p ∈ data, ∀ v ∈ p, 0 ≤ v) :
    Pred.denormalizeData (Pred.normalizeData data) data = data ∧
    (∀ p ∈ Pred.normalizeData data, ∀ i,
      Pred.colMin data i = Pred.colMax data i → p.getD i 0 = 0) ∧
    (∀ p ∈ data, ∀ i, Pred.colMin data i = Pred.colMax data i →
      p.getD i 0 = Pred.colMin data i) := by
  refine ⟨?_, ?_, ?_⟩
  · have main : ∀ p ∈ data,
        Pred.mapWithIndex (fun i v =>
          if Pred.colMin data i = Pred.colMax data i then Pred.colMin data i
          else max 0 (min (v * (Pred.colMax data i - Pred.colMin data i) + Pred.colMin data i)
            (Pred.colMax data i * 2)))
          ((Pred.mapWithIndex (fun i v =>
            if Pred.colMin data i = Pred.colMax data i then 0
            else (v - Pred.colMin data i) / (Pred.colMax data i - Pred.colMin data i)) p).take
              (data.headD []).length) = p := by
      intro p hp
      have hlp : p.length = (data.headD []).length := hlen p hp
      have htake : (Pred.mapWithIndex (fun i v =>
          if Pred.colMin data i = Pred.colMax data i then 0
          else (v - Pred.colMin data i) / (Pred.colMax data i - Pred.colMin data i)) p).take
            (data.headD []).length =
          Pred.mapWithIndex (fun i v =>
            if Pred.colMin data i = Pred.colMax data i then 0
            else (v - Pred.colMin data i) / (Pred.colMax data i - Pred.colMin data i)) p :=
        List.take_of_length_le (le_of_eq (by rw [Pred.length_mapWithIndex, hlp]))
      rw [htake, Pred.mapWithIndex, Pred.mapWithIndex, Pred.mapWithIndexGo_comp]
      apply Pred.mapWithIndexGo_eq_self
      intro i hi
      rw [Nat.zero_add]
      have hvnn : 0 ≤ p.getD i 0 := Pred.getD_nonneg_of_forall (hnn p hp) i
      by_cases hdeg : Pred.colMin data i = Pred.colMax data i
      · rw [if_pos hdeg]
        exact (Pred.degenerate_col_const hp hdeg).symm
      · rw [if_neg hdeg, if_neg hdeg]
        have hne' : Pred.colMax data i - Pred.colMin data i ≠ 0 :=
          sub_ne_zero.mpr (Ne.symm hdeg)
        rw [div_mul_cancel₀ _ hne', sub_add_cancel]
        have hvmax : p.getD i 0 ≤ Pred.colMax data i := Pred.le_colMax_of_mem hp i
        have hmax_nn : 0 ≤ Pred.colMax data i := le_trans hvnn hvmax
        rw [min_eq_left (by linarith), max_eq_right hvnn]
    rw [Pred.denormalizeData, Pred.normalizeData, List.map_map]
    conv_rhs => rw [← List.map_id data]
    exact List.map_congr_left (fun p hp => main p hp)
  · intro p hp i hdeg
    rw [Pred.normalizeData] at hp
    rcases List.mem_map.mp hp with ⟨q, hq, rfl⟩
    by_cases hi : i < q.length
    · rw [Pred.mapWithIndex, Pred.getD_mapWithIndexGo _ 0 q i hi, Nat.zero_add, if_pos hdeg]
    · rw [List.getD_eq_default _ _ (by rw [Pred.length_mapWithIndex]; exact le_of_not_lt hi)]
  · intro p hp i hdeg
    exact Pred.degenerate_col_const hp hdeg

/-- C3 witness: the series `[[1, 5], [3, 5]]` (feature 0 non-degenerate,
feature 1 constant). -/
theorem c3_witness :
    (([[1, 5], [3, 5]] : List (List ℚ)) ≠ [] ∧
      (∀ p ∈ ([[1, 5], [3, 5]] : List (List ℚ)),
        p.length = (([[1, 5], [3, 5]] : List (List ℚ)).headD []).length) ∧
      (∀ p ∈ ([[1, 5], [3, 5]] : List (List ℚ)), ∀ v ∈ p, 0 ≤ v)) ∧
    Pred.denormalizeData (Pred.normalizeData [[1, 5], [3, 5]]) [[1, 5], [3, 5]] =
      [[1, 5], [3, 5]] :=
  ⟨⟨by decide, by decide, by decide⟩,
    (c3_normalize_inverse [[1, 5], [3, 5]] (by decide) (by decide) (by decide)).1⟩

/-!
### C7 — the two per-pollutant index tables
-/

/-- C7 counterexample: the claim says the direct-reading path and the forecast
path share one breakpoint-table definition per pollutant, and in particular
that the two CO index functions agree on every concentration.  They do not:
at a CO concentration of 2 ppm the backend's adjusted table yields 100 while
the forecast copy's EPA table yields 23. -/
theorem c7_counterexample :
    AQICalc.calculateCOIndex 2 = 100 ∧ Pred.calculateCOIndex 2 = 23 ∧
    AQICalc.calculateCOIndex 2 ≠ Pred.calculateCOIndex 2 := by
  norm_num [AQICalc.calculateCOIndex, AQICalc.linearScale, Pred.calculateCOIndex,
    Pred.linearScale, round_eq]

/-- C7 amended: for pm25, pm10, o3, so2 and no2 the index functions of the
direct-reading path and the forecast path compute the same sub-index at every
concentration; the CO tables of the two paths differ, and the two CO index
functions disagree (e.g. at concentration 2). -/
theorem c7_index_tables_agree_except_co (c : ℚ) :
    AQICalc.calculatePM25Index c = Pred.calculatePM25Index c ∧
    AQICalc.calculatePM10Index c = Pred.calculatePM10Index c ∧
    AQICalc.calculateO3Index c = Pred.calculateO3Index c ∧
    AQICalc.calculateSO2Index c = Pred.calculateSO2Index c ∧
    AQICalc.calculateNO2Index c = Pred.calculateNO2Index c :=
  ⟨rfl, rfl, rfl, rfl, rfl⟩

/-!
### C8 — PM2.5 anchor points and segment formula
-/

/-- C8: the PM2.5 index maps 12.0 to 50, 35.4 to 100 and 0 to 0, and on each
of the first two segments it is exactly
`round(((aqiHigh-aqiLow)/(concHigh-concLow)) * (concentration-concLow) + aqiLow)`. -/
theorem c8_pm25_anchor_points :
    AQICalc.calculatePM25Index 12 = 50 ∧ AQICalc.calculatePM25Index (354 / 10) = 100 ∧
    AQICalc.calculatePM25Index 0 = 0 ∧
    (∀ c : ℚ, 0 ≤ c → c ≤ 12 →
      AQICalc.calculatePM25Index c = round ((50 - 0) / (12 - 0) * (c - 0) + 0)) ∧
    (∀ c : ℚ, 12 < c → c ≤ 354 / 10 →
      AQICalc.calculatePM25Index c =
        round ((100 - 51) / (354 / 10 - 121 / 10) * (c - 121 / 10) + 51)) := by
  refine ⟨?_, ?_, ?_, ?_, ?_⟩
  · norm_num [AQICalc.calculatePM25Index, AQICalc.linearScale, round_eq]
  · norm_num [AQICalc.calculatePM25Index, AQICalc.linearScale, round_eq]
  · norm_num [AQICalc.calculatePM25Index, AQICalc.linearScale, round_eq]
  · intro c _ h12
    rw [AQICalc.calculatePM25Index, if_pos h12]
    rfl
  · intro c h1 h2
    rw [AQICalc.calculatePM25Index, if_neg (by linarith), if_pos h2]
    rfl

/-- C8 witness at the concrete concentration 20 (inside the second segment). -/
theorem c8_witness :
    ((12 : ℚ) < 20 ∧ (20 : ℚ) ≤ 354 / 10) ∧
    AQICalc.calculatePM25Index 20 =
      round ((100 - 51) / ((354 : ℚ) / 10 - 121 / 10) * (20 - 121 / 10) + 51) :=
  ⟨⟨by norm_num, by norm_num⟩,
    c8_pm25_anchor_points.2.2.2.2 20 (by norm_num) (by norm_num)⟩

/-!
### C10 — monotonicity of the backend index functions
-/

set_option maxHeartbeats 4000000 in
theorem pm25_index_mono {c1 c2 : ℚ} (h : c1 ≤ c2) :
    AQICalc.calculatePM25Index c1 ≤ AQICalc.calculatePM25Index c2 := by
  unfold AQICalc.calculatePM25Index AQICalc.linearScale
  split_ifs <;> exact round_mono_q (by linarith)

set_option maxHeartbeats 4000000 in
theorem pm10_index_mono {c1 c2 : ℚ} (h : c1 ≤ c2) :
    AQICalc.calculatePM10Index c1 ≤ AQICalc.calculatePM10Index c2 := by
  unfold AQICalc.calculatePM10Index AQICalc.linearScale
  split_ifs <;>
    first
      | (exact round_mono_q (by linarith))
      | (exact round_sep 200 (by push_cast; linarith) (by push_cast; linarith))
      | (exact round_sep 300 (by push_cast; linarith) (by push_cast; linarith))

set_option maxHeartbeats 4000000 in
theorem so2_index_mono {c1 c2 : ℚ} (h : c1 ≤ c2) :
    AQICalc.calculateSO2Index c1 ≤ AQICalc.calculateSO2Index c2 := by
  unfold AQICalc.calculateSO2Index AQICalc.linearScale
  split_ifs <;>
    first
      | (exact round_mono_q (by linarith))
      | (exact round_sep 50 (by push_cast; linarith) (by push_cast; linarith))

set_option maxHeartbeats 4000000 in
theorem no2_index_mono {c1 c2 : ℚ} (h : c1 ≤ c2) :
    AQICalc.calculateNO2Index c1 ≤ AQICalc.calculateNO2Index c2 := by
  unfold AQICalc.calculateNO2Index AQICalc.linearScale
  split_ifs <;>
    first
      | (exact round_mono_q (by linarith))
      | (exact round_sep 50 (by push_cast; linarith) (by push_cast; linarith))

/-- C10 counterexample: the backend O3 index is NOT monotone — at the gap
between the first segment (upper bound 54) and the second (lower bound 55)
the index drops from 50 (at 54) to 49 (at 54.5). -/
theorem c10_counterexample :
    (0 : ℚ) ≤ 54 ∧ (54 : ℚ) ≤ 109 / 2 ∧
    ¬AQICalc.calculateO3Index 54 ≤ AQICalc.calculateO3Index (109 / 2) := by
  norm_num [AQICalc.calculateO3Index, AQICalc.linearScale, round_eq]

/-- C10 amended: the backend pm25, pm10, so2 and no2 index functions are
monotonically non-decreasing on [0, ∞), including across segment boundaries;
the o3 and co index functions are not monotone (their segment gaps — 54→55
for o3, 1.0→1.1 and 2.0→2.1 for co — make the index drop just past a segment
cap). -/
theorem c10_four_monotone_indices (c1 c2 : ℚ) (_h0 : 0 ≤ c1) (h : c1 ≤ c2) :
    AQICalc.calculatePM25Index c1 ≤ AQICalc.calculatePM25Index c2 ∧
    AQICalc.calculatePM10Index c1 ≤ AQICalc.calculatePM10Index c2 ∧
    AQICalc.calculateSO2Index c1 ≤ AQICalc.calculateSO2Index c2 ∧
    AQICalc.calculateNO2Index c1 ≤ AQICalc.calculateNO2Index c2 :=
  ⟨pm25_index_mono h, pm10_index_mono h, so2_index_mono h, no2_index_mono h⟩

/-- C10 witness at the concrete pair 1 ≤ 3. -/
theorem c10_witness :
    ((0 : ℚ) ≤ 1 ∧ (1 : ℚ) ≤ 3) ∧
    (AQICalc.calculatePM25Index 1 ≤ AQICalc.calculatePM25Index 3 ∧
      AQICalc.calculatePM10Index 1 ≤ AQICalc.calculatePM10Index 3 ∧
      AQICalc.calculateSO2Index 1 ≤ AQICalc.calculateSO2Index 3 ∧
      AQICalc.calculateNO2Index 1 ≤ AQICalc.calculateNO2Index 3) :=
  ⟨⟨by norm_num, by norm_num⟩, c10_four_monotone_indices 1 3 (by norm_num) (by norm_num)⟩

theorem makePrediction_fallback_eq {out : Pred.PredOutcome}
    (h : Pred.predictionsOf out = none) (data : List (List ℚ))
    (w : Option Pred.WeatherData) (rand : ℕ → ℕ → ℚ) (hr : ℕ) :
    Pred.makePrediction data w out rand hr =
      Pred.generateFallbackPrediction (Pred.padSeries data) rand hr := by
  simp only [Pred.makePrediction, h]

theorem makePrediction_remote_eq {out : Pred.PredOutcome} {preds : List (List ℚ)}
    (h : Pred.predictionsOf out = some preds) (data : List (List ℚ))
    (w : Option Pred.WeatherData) (rand : ℕ → ℕ → ℚ) (hr : ℕ) :
    Pred.makePrediction data w out rand hr =
      Pred.remoteForecast (Pred.padSeries data) preds := by
  simp only [Pred.makePrediction, h]

/-- C4: the claim's failure condition holds exactly when the code takes the
`catch` path; on failure `predict` returns the fallback forecast in full (no
mixing), otherwise it returns exactly the remote-path conversion of the
returned vectors.  The Lean model is a total function — every failure path
has a defined result, so no error propagates to the caller. -/
theorem c4_failure_exactly_fallback (out : Pred.PredOutcome) :
    (predictorFailure out ↔ Pred.predictionsOf out = none) ∧
    (∀ data w rand hr, Pred.predictionsOf out = none →
      Pred.makePrediction data w out rand hr =
        Pred.generateFallbackPrediction (Pred.padSeries data) rand hr) ∧
    (∀ data w rand hr preds, Pred.predictionsOf out = some preds →
      Pred.makePrediction data w out rand hr =
        Pred.remoteForecast (Pred.padSeries data) preds) := by
  refine ⟨⟨?_, ?_⟩, ?_, ?_⟩
  · intro h
    rcases h with h | ⟨h1, h2⟩
    · subst h; rfl
    · match out with
      | Pred.PredOutcome.transportError => rfl
      | Pred.PredOutcome.ok (Pred.Resp.arr l) => exact absurd rfl (h1 l)
      | Pred.PredOutcome.ok (Pred.Resp.obj (some l)) => exact absurd rfl (h2 l)
      | Pred.PredOutcome.ok (Pred.Resp.obj none) => rfl
      | Pred.PredOutcome.ok Pred.Resp.malformed => rfl
  · intro h
    match out with
    | Pred.PredOutcome.transportError => exact Or.inl rfl
    | Pred.PredOutcome.ok (Pred.Resp.arr l) => simp [Pred.predictionsOf] at h
    | Pred.PredOutcome.ok (Pred.Resp.obj (some l)) => simp [Pred.predictionsOf] at h
    | Pred.PredOutcome.ok (Pred.Resp.obj none) =>
        exact Or.inr ⟨(fun l hl => by cases hl), (fun l hl => by cases hl)⟩
    | Pred.PredOutcome.ok Pred.Resp.malformed =>
        exact Or.inr ⟨(fun l hl => by cases hl), (fun l hl => by cases hl)⟩
  · intro data w rand hr h
    exact makePrediction_fallback_eq h data w rand hr
  · intro data w rand hr preds h
    exact makePrediction_remote_eq h data w rand hr

/-- C4 witness: an object response without a `predictions` field is a failure
and yields exactly the fallback forecast on the padded series. -/
theorem c4_witness :
    Pred.predictionsOf (Pred.PredOutcome.ok (Pred.Resp.obj none)) = none ∧
    Pred.makePrediction [[1, 2, 3, 4, 5, 6]] none (Pred.PredOutcome.ok (Pred.Resp.obj none))
        (fun _ _ => 0) 0 =
      Pred.generateFallbackPrediction (Pred.padSeries [[1, 2, 3, 4, 5, 6]])
        (fun _ _ => 0) 0 :=
  ⟨rfl, (c4_failure_exactly_fallback _).2.1 [[1, 2, 3, 4, 5, 6]] none (fun _ _ => 0) 0 rfl⟩

/-!
### C6 — padding policy and forecast length
-/

theorem length_generateFallbackPrediction (d : List (List ℚ)) (rand : ℕ → ℕ → ℚ)
    (hr : ℕ) : (Pred.generateFallbackPrediction d rand hr).length = 24 := by
  simp [Pred.generateFallbackPrediction]

theorem length_remoteForecast (padded preds : List (List ℚ)) :
    (Pred.remoteForecast padded preds).length = preds.length := by
  simp [Pred.remoteForecast, Pred.denormalizeData]

/-- C6 counterexample: a 10-point series with a remote predictor that returns
a single vector produces a 1-point forecast, not 24 — the remote path returns
one forecast point per returned vector, with no length check. -/
theorem c6_counterexample :
    (List.replicate 10 ([1, 2, 3, 4, 5, 6] : List ℚ)).length < 24 ∧
    (Pred.makePrediction (List.replicate 10 [1, 2, 3, 4, 5, 6]) none
        (Pred.PredOutcome.ok (Pred.Resp.arr [[1 / 2, 1 / 2, 1 / 2, 1 / 2, 1 / 2, 1 / 2]]))
        (fun _ _ => 0) 0).length ≠ 24 := by
  constructor
  · simp
  · have h : Pred.predictionsOf
        (Pred.PredOutcome.ok (Pred.Resp.arr [[1 / 2, 1 / 2, 1 / 2, 1 / 2, 1 / 2, 1 / 2]])) =
        some [[1 / 2, 1 / 2, 1 / 2, 1 / 2, 1 / 2, 1 / 2]] := rfl
    rw [makePrediction_remote_eq h _ none (fun _ _ => 0) 0, length_remoteForecast]
    decide

/-- C6 corrected: a short series is left-padded by duplicating the earliest
point (zero vector when empty) to exactly 24 points; the forecast then has
exactly 24 points whenever the predictor fails (fallback path), while on the
remote path it has one point per vector the predictor returned (24 only for a
conformant predictor). -/
theorem c6_padding_and_horizon (data : List (List ℚ)) (w : Option Pred.WeatherData)
    (out : Pred.PredOutcome) (rand : ℕ → ℕ → ℚ) (hr : ℕ) (h : data.length < 24) :
    (Pred.padSeries data).length = 24 ∧
    Pred.padSeries data =
      List.replicate (24 - data.length) (data.headD Pred.zeroVec) ++ data ∧
    (Pred.predictionsOf out = none →
      (Pred.makePrediction data w out rand hr).length = 24) ∧
    (∀ preds, Pred.predictionsOf out = some preds →
      (Pred.makePrediction data w out rand hr).length = preds.length) := by
  refine ⟨?_, ?_, ?_, ?_⟩
  · rw [Pred.padSeries, if_pos h]
    simp
    omega
  · rw [Pred.padSeries, if_pos h]
  · intro hout
    rw [makePrediction_fallback_eq hout data w rand hr, length_generateFallbackPrediction]
  · intro preds hout
    rw [makePrediction_remote_eq hout data w rand hr, length_remoteForecast]

/-- C6 witness: a 10-point series with a failing predictor is padded to 24
and yields a 24-point fallback forecast. -/
theorem c6_witness :
    (List.replicate 10 ([1, 2, 3, 4, 5, 6] : List ℚ)).length < 24 ∧
    ((Pred.padSeries (List.replicate 10 [1, 2, 3, 4, 5, 6])).length = 24 ∧
      Pred.padSeries (List.replicate 10 [1, 2, 3, 4, 5, 6]) =
        List.replicate (24 - (List.replicate 10 ([1, 2, 3, 4, 5, 6] : List ℚ)).length)
          ((List.replicate 10 ([1, 2, 3, 4, 5, 6] : List ℚ)).headD Pred.zeroVec) ++
          List.replicate 10 [1, 2, 3, 4, 5, 6] ∧
      (Pred.predictionsOf Pred.PredOutcome.transportError = none →
        (Pred.makePrediction (List.replicate 10 [1, 2, 3, 4, 5, 6]) none
          Pred.PredOutcome.transportError (fun _ _ => 0) 0).length = 24) ∧
      (∀ preds, Pred.predictionsOf Pred.PredOutcome.transportError = some preds →
        (Pred.makePrediction (List.replicate 10 [1, 2, 3, 4, 5, 6]) none
          Pred.PredOutcome.transportError (fun _ _ => 0) 0).length = preds.length)) :=
  ⟨by simp, c6_padding_and_horizon (List.replicate 10 [1, 2, 3, 4, 5, 6]) none
    Pred.PredOutcome.transportError (fun _ _ => 0) 0 (by simp)⟩

/-!
### C9 — mutation of the input series
-/

/-- C9 counterexample: after `makePrediction` on a 1-point series, the
caller's array no longer contains exactly its original points — the padding
`unshift` loop has prepended 23 copies of the earliest point. -/
theorem c9_counterexample :
    Pred.makePredictionPost [[1, 2, 3, 4, 5, 6]] ≠ [[1, 2, 3, 4, 5, 6]] := by
  intro h
  have := congrArg List.length h
  simp [Pred.makePredictionPost, Pred.padSeries] at this

/-- C9 corrected: `makePrediction` leaves the caller's series untouched when
it already has at least 24 points; a shorter series is mutated in place by
prepending `24 - length` copies of its earliest point (the original points
survive, in order, as a suffix).  All other steps (weather augmentation,
normalization, denormalization, fallback) operate on copies. -/
theorem c9_post_state (data : List (List ℚ)) :
    (24 ≤ data.length → Pred.makePredictionPost data = data) ∧
    (data.length < 24 →
      Pred.makePredictionPost data =
        List.replicate (24 - data.length) (data.headD Pred.zeroVec) ++ data) := by
  constructor
  · intro h
    rw [Pred.makePredictionPost, Pred.padSeries, if_neg (by omega)]
  · intro h
    rw [Pred.makePredictionPost, Pred.padSeries, if_pos h]

/-- C9 witness: a 24-point series comes back unchanged. -/
theorem c9_witness :
    24 ≤ (List.replicate 24 Pred.zeroVec).length ∧
    Pred.makePredictionPost (List.replicate 24 Pred.zeroVec) =
      List.replicate 24 Pred.zeroVec :=
  ⟨by simp, (c9_post_state _).1 (by simp)⟩

/-- C5 (code bug): on a 24-point window of constant 6-feature rows, the
code's `extractDailyPatterns` yields NaN for every bucket (shown here for
hour 0, feature 0): it evaluates `hourlyAverage - hourlyAverages[i]`, and
`hourlyAverages[i]` is the ROW ARRAY at index `i`, which JS coerces to NaN
for a 6-feature row.  The bucket's deviation from the overall mean — what the
claim and the code's own comment (line 529) describe — is 0 here. -/
theorem c5_daily_pattern_nan :
    ((Pred.extractDailyPatterns (List.replicate 24 [1, 1, 1, 1, 1, 1])).getD 0 []).getD 0
        (JVal.num 0) = JVal.nan ∧
    dailyPatternSpec (List.replicate 24 [1, 1, 1, 1, 1, 1]) 0 0 = 0 := by
  constructor
  · decide
  · have hf : (List.range (List.replicate 24 ([1, 1, 1, 1, 1, 1] : List ℚ)).length).filter
        (fun idx => idx % 24 = 0) = [0] := by decide
    simp only [dailyPatternSpec, hf]
    norm_num

/-- C2 (code bug): with an empty history — padded by `makePrediction` to 24
zero vectors — and a failing predictor, the fallback's first forecast point
carries pm25 = NaN, which is not a non-negative number.  The daily-pattern
matrix is all-NaN (see C5), NaN propagates through `mean + trend·h + pattern`
and the ±5% jitter, and `Math.max(0, NaN)` is NaN, so the clamp never
repairs it; the same happens for every hour and every pollutant. -/
theorem c2_fallback_nan_value :
    ((Pred.makePrediction [] none Pred.PredOutcome.transportError (fun _ _ => 0) 0).getD 0
        ⟨JVal.num 0, ⟨none, none, none, none, none, none⟩⟩).pollutants.pm25 =
      some JVal.nan := by decide

end AirQuality
